import Mathlib

/-!
Verification development for the mnist-service repository.

The repository ships a browser frontend (`frontend/src/App.tsx`, two
revisions kept in the same file) that lets the user draw a digit on a
280x280 canvas, downscales the drawing to 28x28, uploads it as a PNG to a
`/predict` endpoint, and renders the returned digit / confidence /
probability vector.  The FastAPI backend (raster normalisation, model
forward pass, softmax, argmax, transport adapter) is not part of the
checked-in sources; where a claim depends on it, the corresponding
definition is modelled from the specification and marked as such in its
doc comment.

Conventions of the embedding:
* raster images are single-channel intensity buffers (`List ℕ`, row
  major, values 0..255) — the drawing surface is black background with
  white strokes, so intensity carries the whole signal;
* real-number pipeline values are modelled with `ℚ` so that every
  definition is executable and every predicate decidable;
* the stateful React component is modelled by explicit state records and
  pure transition functions on them.
-/

namespace Mnist

/-! ## Shared resampling (client `drawImage` downscale / RasterNormalizer)

Modelled from the spec: the concrete interpolation used by the browser
canvas `drawImage` call and by the backend RasterNormalizer is not in the
sources; the spec requires "an area-averaging or equivalent
interpolation" that is deterministic, so we embed an exact area-average
over rationals. -/

/-- Intensity of pixel `(x, y)` of a `width`-wide row-major buffer, as a
rational; out-of-range reads give 0. -/
def pixelAt (width : ℕ) (pixels : List ℕ) (x y : ℕ) : ℚ :=
  ((pixels.getD (y * width + x) 0 : ℕ) : ℚ)

/-- Length of the overlap of intervals `[a1, a2]` and `[b1, b2]`. -/
def overlapLen (a1 a2 b1 b2 : ℚ) : ℚ :=
  max 0 (min a2 b2 - max a1 b1)

/-- Modelled from the spec: exact area-average of the input pixels lying
under output cell `(cx, cy)` of the 28x28 target grid. -/
def cellValue (width height : ℕ) (pixels : List ℕ) (cx cy : ℕ) : ℚ :=
  let w : ℚ := width
  let h : ℚ := height
  let x1 := cx * w / 28
  let x2 := (cx + 1) * w / 28
  let y1 := cy * h / 28
  let y2 := (cy + 1) * h / 28
  let total :=
    ((List.range height).map (fun (y : ℕ) =>
      ((List.range width).map (fun (x : ℕ) =>
        overlapLen (x : ℚ) ((x : ℚ) + 1) x1 x2 *
          overlapLen (y : ℚ) ((y : ℚ) + 1) y1 y2 *
          pixelAt width pixels x y)).sum)).sum
  total / ((x2 - x1) * (y2 - y1))

/-- Modelled from the spec: deterministic area-average resampling of an
arbitrary raster to the flat 28x28 (= 784 element) grid, row major. -/
def areaResample28 (width height : ℕ) (pixels : List ℕ) : List ℚ :=
  (List.range (28 * 28)).map (fun k => cellValue width height pixels (k % 28) (k / 28))

/-! ## Frontend model (`frontend/src/App.tsx`)

Both revisions of the component share the constants and the request
construction; they differ in the state they keep and in how they consume
the response. -/

/-- `const CANVAS_SIZE = 280` in `App.tsx`. -/
def CANVAS_SIZE : ℕ := 280

/-- `const MNIST_SIZE = 28` in `App.tsx`. -/
def MNIST_SIZE : ℕ := 28

/-- `ctx.fillStyle = "black"` — the canvas background colour set on mount
and on clear. -/
def canvasFillStyle : String := "black"

/-- `ctx.strokeStyle = "white"` — the stroke colour set on mount and on
clear. -/
def canvasStrokeStyle : String := "white"

/-- A canvas raster: single-channel intensities, row major. -/
structure Canvas where
  width : ℕ
  height : ℕ
  pixels : List ℕ
deriving DecidableEq

/-- The freshly initialised / cleared 280x280 canvas: filled black
(intensity 0 everywhere). -/
def initCanvas : Canvas :=
  ⟨CANVAS_SIZE, CANVAS_SIZE, List.replicate (CANVAS_SIZE * CANVAS_SIZE) 0⟩

/-- A PNG raster payload.  PNG compression is lossless, so the model
keeps the raster itself together with its declared dimensions. -/
structure Png where
  width : ℕ
  height : ℕ
  data : List ℕ
deriving DecidableEq

/-- `canvas.toBlob(..., "image/png")`: the blob carries a MIME type and
the PNG-encoded raster. -/
structure Blob where
  mime : String
  png : Png
deriving DecidableEq

/-- PNG encoding of a canvas (lossless container). -/
def encodePng (c : Canvas) : Png :=
  ⟨c.width, c.height, c.pixels⟩

/-- Round a rational intensity to a byte in 0..255, as canvas
rasterisation does when writing the downscaled image. -/
def quantizeByte (q : ℚ) : ℕ :=
  (min 255 (max 0 (Int.floor (q + 1 / 2)))).toNat

/-- The hidden `MNIST_SIZE` x `MNIST_SIZE` canvas produced by
`sctx.drawImage(canvas, 0, 0, MNIST_SIZE, MNIST_SIZE)`: the browser
resamples the source canvas onto the 28x28 target. -/
def downscaleTo28 (c : Canvas) : Canvas :=
  ⟨MNIST_SIZE, MNIST_SIZE, (areaResample28 c.width c.height c.pixels).map quantizeByte⟩

/-- One `FormData` file entry: `formData.append("file", blob, "digit.png")`. -/
structure FormField where
  name : String
  filename : String
  content : Blob
deriving DecidableEq

/-- The outgoing HTTP request built by `classify`. -/
structure HttpRequest where
  method : String
  url : String
  fields : List FormField
deriving DecidableEq

/-- Request built by the first revision of `classify` (`App.tsx` lines
110-141): downscale to 28x28, encode as PNG, append as the single
`"file"` form field named `digit.png`, POST to `API_BASE + "/predict"`. -/
def classifyRequestV1 (apiBase : String) (c : Canvas) : HttpRequest :=
  let small := downscaleTo28 c
  let blob : Blob := ⟨"image/png", encodePng small⟩
  let formData : List FormField := [⟨"file", "digit.png", blob⟩]
  ⟨"POST", apiBase ++ "/predict", formData⟩

/-- Request built by the second revision of `classify` (`App.tsx` lines
385-422).  This revision additionally snapshots the full canvas as a data
URL for the history panel, but the request itself is built the same way:
hidden 28x28 canvas, PNG blob, one `"file"` field, POST to
`API_BASE + "/predict"`. -/
def classifyRequestV2 (apiBase : String) (c : Canvas) : HttpRequest :=
  let smallCanvas := downscaleTo28 c
  let pngBlob : Blob := ⟨"image/png", encodePng smallCanvas⟩
  ⟨"POST", apiBase ++ "/predict", [⟨"file", "digit.png", pngBlob⟩]⟩

/-- `canvas.toDataURL("image/png")` snapshot used for the history
thumbnails in the second revision. -/
def canvasDataUrl (c : Canvas) : Png :=
  encodePng c

/-! ### Response handling -/

/-- The JSON body parsed from the `/predict` response (`PredictResponse`
in `App.tsx`): every field may be absent at runtime, and `error` may be
any string, including the empty one. -/
structure PredictResponse where
  digit : Option ℤ
  confidence : Option ℚ
  probabilities : Option (List ℚ)
  error : Option String
deriving DecidableEq

/-- Outcome of the `fetch` + `response.json()` pair inside the `try`
block: either a parsed response together with `response.ok`, or a thrown
exception with its message (network failure, JSON parse failure, ...). -/
inductive FetchOutcome where
  | response (ok : Bool) (data : PredictResponse)
  | threw (msg : String)
deriving DecidableEq

/-- JavaScript truthiness of `data.error`: a present, non-empty string.
`if (!response.ok || data.error)` tests this, not mere presence. -/
def errTruthy (e : Option String) : Bool :=
  match e with
  | some s => decide (s ≠ "")
  | none => false

/-- The message of the error thrown on the failure branch:
`data.error ?? "Server error"` (nullish coalescing keeps an empty
string). -/
def thrownMessage (e : Option String) : String :=
  e.getD "Server error"

/-- Template interpolation of `data.digit`: JavaScript renders a missing
field as the text `undefined`. -/
def showDigit (d : Option ℤ) : String :=
  match d with
  | some n => toString n
  | none => "undefined"

/-- Model of `Number.prototype.toFixed(2)` on a rational: round to two
decimal places and render with a two-digit fractional part. -/
def toFixed2 (q : ℚ) : String :=
  let n : ℤ := Int.floor (q * 100 + 1 / 2)
  let a : ℕ := n.natAbs
  let sign := if n < 0 then "-" else ""
  let frac := a % 100
  sign ++ toString (a / 100) ++ "." ++ (if frac < 10 then "0" else "") ++ toString frac

/-- Result banner of the first revision:
`Prediction: ${data.digit}   Confidence: ${confidencePercent.toFixed(2)}%`. -/
def resultTextV1 (d : Option ℤ) (confidence : ℚ) : String :=
  "Prediction: " ++ showDigit d ++ "   Confidence: " ++ toFixed2 (confidence * 100) ++ "%"

/-- Result banner of the second revision:
`Prediction: ${data.digit} • Confidence: ${confidencePercent.toFixed(2)}%`. -/
def resultTextV2 (d : Option ℤ) (confidence : ℚ) : String :=
  "Prediction: " ++ showDigit d ++ " • Confidence: " ++ toFixed2 (confidence * 100) ++ "%"

/-- Component state of the first revision: only the result and error
banners. -/
structure UIStateV1 where
  result : String
  error : String
deriving DecidableEq

/-- First revision of the response handling (`App.tsx` lines 110-161):
`classify` clears both banners, then either shows the prediction or, on
`!response.ok || data.error` / a thrown exception, shows
`Error: ${message}`. -/
def handleResponseV1 (prev : UIStateV1) (o : FetchOutcome) : UIStateV1 :=
  let st := { prev with result := "", error := "" }
  match o with
  | .threw msg =>
      { st with error := "Error: " ++ msg }
  | .response ok data =>
      if ok = false ∨ errTruthy data.error then
        { st with error := "Error: " ++ thrownMessage data.error }
      else
        { st with result := resultTextV1 data.digit (data.confidence.getD 0) }

/-- One entry of the prediction history kept by the second revision. -/
structure HistoryItem where
  id : ℕ
  digit : ℤ
  confidence : ℚ
  probabilities : List ℚ
  createdAt : ℕ
  imageDataUrl : Png
deriving DecidableEq

/-- Component state of the second revision: banners plus the displayed
probability vector, the highlighted predicted digit, and the history. -/
structure UIStateV2 where
  result : String
  error : String
  probabilities : Option (List ℚ)
  predictedDigit : Option ℤ
  history : List HistoryItem
deriving DecidableEq

/-- Second revision of the response handling (`App.tsx` lines 385-473).
`classify` clears the two banners (but not the probability bars), then:
on `!response.ok || data.error` or a thrown exception it shows
`Error: ${message}` and nulls `probabilities` and `predictedDigit`; on
success it shows the banner, keeps `probabilities` only when the payload
is a 10-element array, sets `predictedDigit`, and prepends a history item
when digit, confidence and a 10-element probability array are all
present.  `now` stands for `Date.now()` and `snapshot` for the
`canvas.toDataURL` capture taken before the upload. -/
def handleResponseV2 (prev : UIStateV2) (now : ℕ) (snapshot : Png)
    (o : FetchOutcome) : UIStateV2 :=
  let st := { prev with result := "", error := "" }
  match o with
  | .threw msg =>
      { st with error := "Error: " ++ msg, probabilities := none, predictedDigit := none }
  | .response ok data =>
      if ok = false ∨ errTruthy data.error then
        { st with error := "Error: " ++ thrownMessage data.error,
                  probabilities := none, predictedDigit := none }
      else
        let probs : Option (List ℚ) :=
          match data.probabilities with
          | some l => if l.length = 10 then some l else none
          | none => none
        let st1 :=
          { st with result := resultTextV2 data.digit (data.confidence.getD 0),
                    probabilities := probs,
                    predictedDigit := data.digit }
        match data.digit, data.confidence, data.probabilities with
        | some d, some c, some l =>
            if l.length = 10 then
              { st1 with history := ⟨now, d, c, l, now, snapshot⟩ :: prev.history }
            else st1
        | _, _, _ => st1

/-! ## Backend pipeline

Modelled from the spec: the FastAPI inference service (RasterNormalizer,
TensorEncoder, ClassificationService, ResultPolicy, TransportAdapter) is
absent from the checked-in sources — only the frontend, README and
Dockerfile are present — so the following definitions embed sections 3-7
of the specification.  The model forward pass and the exponential used by
the softmax are kept as explicit function parameters: the spec treats the
trained model as an external collaborator that yields a deterministic
score function, and only positivity of the exponential matters for the
stated invariants. -/

/-- Pipeline error taxonomy of spec section 7. -/
inductive PipelineError where
  | decodeError
  | dimensionError
  | inferenceError
  | invariantViolation
deriving DecidableEq

/-- An uploaded raster after decoding: declared dimensions plus the
row-major intensity buffer (0..255). -/
structure RawImage where
  width : ℕ
  height : ℕ
  pixels : List ℕ
deriving DecidableEq

/-- Modelled from the spec (RasterNormalizer, section 4.1): signal
`DimensionError` when a dimension is zero, otherwise resample the raster
deterministically onto the 28x28 grid. -/
def normalize (img : RawImage) : Except PipelineError (List ℚ) :=
  if img.width = 0 ∨ img.height = 0 then .error .dimensionError
  else .ok (areaResample28 img.width img.height img.pixels)

/-- Model input: batch dimension plus the flattened 784-element data. -/
structure InputTensor where
  batch : ℕ
  data : List ℚ
deriving DecidableEq

/-- Modelled from the spec (TensorEncoder, section 4.2): rescale 0..255
intensities into the [0,1] training range and attach batch size 1. -/
def encode (grid : List ℚ) : InputTensor :=
  ⟨1, grid.map (fun v => v / 255)⟩

/-- Modelled from the spec (section 4.3 and design notes): numerically
stable softmax — subtract the running maximum, apply the exponential
`e`, divide by the total.  `e` abstracts the strictly positive
exponential function. -/
def softmaxWith (e : ℚ → ℚ) (scores : List ℚ) : List ℚ :=
  let m := scores.foldl max (scores.headD 0)
  let exps := scores.map (fun s => e (s - m))
  exps.map (fun x => x / exps.sum)

/-- Modelled from the spec (ClassificationService, section 4.3): a pure
forward pass over the loaded model followed by the softmax; a malformed
tensor shape signals `InferenceError`. -/
def classifyTensor (e : ℚ → ℚ) (forward : List ℚ → List ℚ)
    (t : InputTensor) : Except PipelineError (List ℚ) :=
  if t.data.length = 28 * 28 then .ok (softmaxWith e (forward t.data))
  else .error .inferenceError

/-- The final payload: digit, confidence and the full distribution. -/
structure ClassificationResult where
  digit : ℕ
  confidence : ℚ
  probabilities : List ℚ
deriving DecidableEq

/-- Index of the first maximum of a list (ties broken by the lowest
index); 0 on the empty list. -/
def argmaxIdx : List ℚ → ℕ
  | [] => 0
  | [_] => 0
  | x :: y :: t =>
      let j := argmaxIdx (y :: t)
      if x < (y :: t).getD j 0 then j + 1 else 0

/-- Modelled from the spec (ResultPolicy, section 4.4): validate the
length-10 / sum-within-1e-3 invariant (else `InvariantViolation`), then
report the first arg-max index as the digit and its probability as the
confidence, with no smoothing. -/
def summarize (probs : List ℚ) : Except PipelineError ClassificationResult :=
  if probs.length = 10 ∧ |probs.sum - 1| ≤ 1 / 1000 then
    .ok ⟨argmaxIdx probs, probs.getD (argmaxIdx probs) 0, probs⟩
  else
    .error .invariantViolation

/-- Modelled from the spec (data flow, section 2): the full per-request
pipeline, propagating the first error. -/
def pipeline (e : ℚ → ℚ) (forward : List ℚ → List ℚ)
    (img : RawImage) : Except PipelineError ClassificationResult :=
  match normalize img with
  | .error err => .error err
  | .ok grid =>
      match classifyTensor e forward (encode grid) with
      | .error err => .error err
      | .ok probs => summarize probs

/-- The same pipeline run, additionally exposing every intermediate
value (normalized grid, input tensor, probability vector) next to the
final result. -/
def pipelineTrace (e : ℚ → ℚ) (forward : List ℚ → List ℚ)
    (img : RawImage) :
    Except PipelineError (List ℚ × InputTensor × List ℚ × ClassificationResult) :=
  match normalize img with
  | .error err => .error err
  | .ok grid =>
      match classifyTensor e forward (encode grid) with
      | .error err => .error err
      | .ok probs =>
          match summarize probs with
          | .error err => .error err
          | .ok r => .ok (grid, encode grid, probs, r)

/-- The structured HTTP reply of the transport adapter. -/
structure HttpResponse where
  status : ℕ
  digit : Option ℕ
  confidence : Option ℚ
  probabilities : Option (List ℚ)
  error : Option String
deriving DecidableEq

/-- Modelled from the spec (section 7): user-correctable errors map to a
4xx status, server-side faults to a 5xx status. -/
def errorStatus : PipelineError → ℕ
  | .decodeError => 400
  | .dimensionError => 400
  | .inferenceError => 500
  | .invariantViolation => 500

/-- Modelled from the spec (section 7): the safe, descriptive message of
each pipeline error. -/
def errorText : PipelineError → String
  | .decodeError => "Could not decode the uploaded image"
  | .dimensionError => "Image width and height must be positive"
  | .inferenceError => "Inference failed"
  | .invariantViolation => "Model output failed validation"

/-- Modelled from the spec (TransportAdapter, sections 4.5-7): reject an
empty upload, reject bytes that do not decode to an image (`decodeImage`
abstracts the external PNG decoder), otherwise run the pipeline and
marshal either the result or the structured error. -/
def handlePredict (decodeImage : List ℕ → Option RawImage)
    (e : ℚ → ℚ) (forward : List ℚ → List ℚ) (upload : List ℕ) : HttpResponse :=
  if upload.isEmpty then
    ⟨400, none, none, none, some "Empty upload"⟩
  else
    match decodeImage upload with
    | none => ⟨400, none, none, none, some (errorText .decodeError)⟩
    | some img =>
        match pipeline e forward img with
        | .error err => ⟨errorStatus err, none, none, none, some (errorText err)⟩
        | .ok r => ⟨200, some r.digit, some r.confidence, some r.probabilities, none⟩

/-- An all-background (blank) drawing of the given dimensions. -/
def blankImage (w h : ℕ) : RawImage :=
  ⟨w, h, List.replicate (w * h) 0⟩

/-- The raw score vector fed to the softmax inside `pipeline`: the model
forward pass applied to the encoded, resampled image. -/
def pipelineScores (forward : List ℚ → List ℚ) (img : RawImage) : List ℚ :=
  forward ((encode (areaResample28 img.width img.height img.pixels)).data)

/-! ## Supporting lemmas -/

theorem sum_map_div (l : List ℚ) (S : ℚ) :
    (l.map (fun x => x / S)).sum = l.sum / S := by
  induction l with
  | nil => simp
  | cons a t ih => simp [ih, add_div]

theorem length_softmaxWith (e : ℚ → ℚ) (s : List ℚ) :
    (softmaxWith e s).length = s.length := by
  simp [softmaxWith]

theorem softmaxWith_eq (e : ℚ → ℚ) (s : List ℚ) :
    softmaxWith e s =
      (s.map (fun v => e (v - s.foldl max (s.headD 0)))).map
        (fun x => x / (s.map (fun v => e (v - s.foldl max (s.headD 0)))).sum) :=
  rfl

theorem exps_pos (e : ℚ → ℚ) (s : List ℚ) (he : ∀ x, 0 < e x) :
    ∀ x ∈ s.map (fun v => e (v - s.foldl max (s.headD 0))), 0 < x := by
  intro x hx
  rcases List.mem_map.mp hx with ⟨a, _, rfl⟩
  exact he _

theorem exps_ne_nil (e : ℚ → ℚ) (s : List ℚ) (hs : s ≠ []) :
    s.map (fun v => e (v - s.foldl max (s.headD 0))) ≠ [] := by
  simpa using hs

theorem softmaxWith_sum (e : ℚ → ℚ) (s : List ℚ)
    (he : ∀ x, 0 < e x) (hs : s ≠ []) : (softmaxWith e s).sum = 1 := by
  rw [softmaxWith_eq, sum_map_div]
  exact div_self (ne_of_gt (List.sum_pos _ (exps_pos e s he) (exps_ne_nil e s hs)))

theorem softmaxWith_mem_bounds (e : ℚ → ℚ) (s : List ℚ)
    (he : ∀ x, 0 < e x) (hs : s ≠ []) :
    ∀ p ∈ softmaxWith e s, 0 ≤ p ∧ p ≤ 1 := by
  intro p hp
  rw [softmaxWith_eq] at hp
  have hpos := List.sum_pos _ (exps_pos e s he) (exps_ne_nil e s hs)
  rcases List.mem_map.mp hp with ⟨x, hx, rfl⟩
  refine ⟨div_nonneg (le_of_lt (exps_pos e s he x hx)) (le_of_lt hpos), ?_⟩
  rw [div_le_one hpos]
  exact List.single_le_sum (fun y hy => le_of_lt (exps_pos e s he y hy)) x hx

theorem argmaxIdx_lt_length : ∀ (l : List ℚ), l ≠ [] → argmaxIdx l < l.length
  | [], h => absurd rfl h
  | [_], _ => by simp [argmaxIdx]
  | x :: y :: t, _ => by
      have ih := argmaxIdx_lt_length (y :: t) (List.cons_ne_nil y t)
      simp only [argmaxIdx]
      split
      · simpa using Nat.succ_lt_succ ih
      · simp

theorem argmaxIdx_is_max : ∀ (l : List ℚ), ∀ i, i < l.length →
    l.getD i 0 ≤ l.getD (argmaxIdx l) 0
  | [], i => by intro h; simp at h
  | [x], i => by
      intro h
      have hi : i = 0 := by simpa using Nat.lt_one_iff.mp (by simpa using h)
      subst hi
      simp [argmaxIdx]
  | x :: y :: t, i => by
      intro hi
      have ihmax := argmaxIdx_is_max (y :: t)
      by_cases hx : x < (y :: t).getD (argmaxIdx (y :: t)) 0
      · simp only [argmaxIdx, if_pos hx]
        rw [List.getD_cons_succ]
        cases i with
        | zero => rw [List.getD_cons_zero]; exact le_of_lt hx
        | succ i =>
            rw [List.getD_cons_succ]
            exact ihmax i (by simpa using Nat.lt_of_succ_lt_succ (by simpa using hi))
      · simp only [argmaxIdx, if_neg hx]
        cases i with
        | zero => simp
        | succ i =>
            rw [List.getD_cons_succ, List.getD_cons_zero]
            exact le_trans
              (ihmax i (by simpa using Nat.lt_of_succ_lt_succ (by simpa using hi)))
              (not_lt.mp hx)

theorem argmaxIdx_first_max : ∀ (l : List ℚ), ∀ i, i < argmaxIdx l →
    l.getD i 0 < l.getD (argmaxIdx l) 0
  | [], i => by intro h; simp [argmaxIdx] at h
  | [_], i => by intro h; simp [argmaxIdx] at h
  | x :: y :: t, i => by
      intro hi
      have ihf := argmaxIdx_first_max (y :: t)
      by_cases hx : x < (y :: t).getD (argmaxIdx (y :: t)) 0
      · simp only [argmaxIdx, if_pos hx] at hi ⊢
        rw [List.getD_cons_succ]
        cases i with
        | zero => rw [List.getD_cons_zero]; exact hx
        | succ i =>
            rw [List.getD_cons_succ]
            exact ihf i (Nat.lt_of_succ_lt_succ hi)
      · simp only [argmaxIdx, if_neg hx] at hi
        exact absurd hi (Nat.not_lt_zero i)

theorem summarize_ok_inv {probs : List ℚ} {r : ClassificationResult}
    (h : summarize probs = .ok r) :
    probs.length = 10 ∧ |probs.sum - 1| ≤ 1 / 1000 ∧
      r = ⟨argmaxIdx probs, probs.getD (argmaxIdx probs) 0, probs⟩ := by
  unfold summarize at h
  split at h
  next hc =>
    cases h
    exact ⟨hc.1, hc.2, rfl⟩
  next => cases h

theorem pipeline_eq_summarize (e : ℚ → ℚ) (f : List ℚ → List ℚ) (img : RawImage)
    (hw : img.width ≠ 0) (hh : img.height ≠ 0) :
    pipeline e f img = summarize (softmaxWith e (pipelineScores f img)) := by
  have hnorm : normalize img = .ok (areaResample28 img.width img.height img.pixels) := by
    unfold normalize
    rw [if_neg (by omega)]
  have hlen784 : ((encode (areaResample28 img.width img.height img.pixels)).data).length
      = 28 * 28 := by
    simp [encode, areaResample28]
  have hct : classifyTensor e f (encode (areaResample28 img.width img.height img.pixels))
      = .ok (softmaxWith e (pipelineScores f img)) := by
    unfold classifyTensor pipelineScores
    rw [if_pos hlen784]
  simp [pipeline, hnorm, hct]

theorem pipeline_ok_inv {e : ℚ → ℚ} {f : List ℚ → List ℚ} {img : RawImage}
    {r : ClassificationResult} (h : pipeline e f img = .ok r) :
    r.probabilities = softmaxWith e (pipelineScores f img) ∧
    r.probabilities.length = 10 ∧ |r.probabilities.sum - 1| ≤ 1 / 1000 ∧
    r.digit = argmaxIdx r.probabilities ∧
    r.confidence = r.probabilities.getD r.digit 0 := by
  by_cases hw : img.width = 0 ∨ img.height = 0
  · exfalso
    unfold pipeline normalize at h
    rw [if_pos hw] at h
    simp at h
  · push_neg at hw
    rw [pipeline_eq_summarize e f img hw.1 hw.2] at h
    obtain ⟨h10, hsum, rfl⟩ := summarize_ok_inv h
    exact ⟨rfl, h10, hsum, rfl, rfl⟩

theorem abs_tol_of_sum_one {q : ℚ} (h : q = 1) : |q - 1| ≤ 1 / 1000 := by
  rw [h]
  norm_num

/-- The result value the pipeline yields on a successful run. -/
def pipeResult (e : ℚ → ℚ) (f : List ℚ → List ℚ) (img : RawImage) : ClassificationResult :=
  ⟨argmaxIdx (softmaxWith e (pipelineScores f img)),
   (softmaxWith e (pipelineScores f img)).getD
     (argmaxIdx (softmaxWith e (pipelineScores f img))) 0,
   softmaxWith e (pipelineScores f img)⟩

theorem summarize_ok_of (probs : List ℚ) (h10 : probs.length = 10)
    (habs : |probs.sum - 1| ≤ 1 / 1000) :
    summarize probs = .ok ⟨argmaxIdx probs, probs.getD (argmaxIdx probs) 0, probs⟩ := by
  unfold summarize
  rw [if_pos ⟨h10, habs⟩]

theorem pipeline_succeeds (e : ℚ → ℚ) (f : List ℚ → List ℚ) (img : RawImage)
    (hw : img.width ≠ 0) (hh : img.height ≠ 0) (he : ∀ x, 0 < e x)
    (hf10 : (pipelineScores f img).length = 10) :
    pipeline e f img = .ok (pipeResult e f img) := by
  have hne : pipelineScores f img ≠ [] := by
    intro hn
    rw [hn] at hf10
    simp at hf10
  rw [pipeline_eq_summarize e f img hw hh]
  exact summarize_ok_of _ ((length_softmaxWith _ _).trans hf10)
    (abs_tol_of_sum_one (softmaxWith_sum _ _ he hne))

theorem error_text_ne_empty (m : String) : ("Error: " ++ m) ≠ "" := by
  intro hcontra
  have hlen := congrArg String.length hcontra
  rw [String.length_append] at hlen
  have h7 : ("Error: " : String).length = 7 := rfl
  have h0 : ("" : String).length = 0 := rfl
  omega

/-- The initial component state of the second revision: empty banners, no
probabilities, no highlighted digit, empty history. -/
def emptyStateV2 : UIStateV2 :=
  ⟨"", "", none, none, []⟩

/-! ## The claims -/

/-- C1: every classification response produced by the pipeline carries a
`probabilities` vector of exactly 10 values, each in [0,1], whose sum is
within 1e-3 of 1.  (`e` abstracts the softmax exponential; its strict
positivity is the one modelling premise.) -/
theorem C1_distribution_validity {e : ℚ → ℚ} {f : List ℚ → List ℚ}
    {img : RawImage} {r : ClassificationResult}
    (he : ∀ x, 0 < e x) (h : pipeline e f img = .ok r) :
    r.probabilities.length = 10 ∧
    (∀ p ∈ r.probabilities, 0 ≤ p ∧ p ≤ 1) ∧
    |r.probabilities.sum - 1| ≤ 1 / 1000 := by
  obtain ⟨hps, h10, hsum, _, _⟩ := pipeline_ok_inv h
  refine ⟨h10, ?_, hsum⟩
  have hslen : (pipelineScores f img).length = 10 := by
    rw [hps, length_softmaxWith] at h10
    exact h10
  have hsne : pipelineScores f img ≠ [] := by
    intro hn
    rw [hn] at hslen
    simp at hslen
  rw [hps]
  exact softmaxWith_mem_bounds _ _ he hsne

/-- Witness for C1 at a concrete 1x1 image, constant exponential and a
constant ten-score model. -/
theorem C1_distribution_validity_witness :
    (∀ x : ℚ, 0 < (fun _ : ℚ => (1 : ℚ)) x) ∧
    pipeline (fun _ => (1 : ℚ)) (fun _ => [0, 0, 0, 0, 0, 0, 0, 0, 0, 0]) ⟨1, 1, [0]⟩
      = .ok (pipeResult (fun _ => (1 : ℚ)) (fun _ => [0, 0, 0, 0, 0, 0, 0, 0, 0, 0]) ⟨1, 1, [0]⟩) ∧
    ((pipeResult (fun _ => (1 : ℚ)) (fun _ => [0, 0, 0, 0, 0, 0, 0, 0, 0, 0])
        ⟨1, 1, [0]⟩).probabilities.length = 10 ∧
     (∀ p ∈ (pipeResult (fun _ => (1 : ℚ)) (fun _ => [0, 0, 0, 0, 0, 0, 0, 0, 0, 0])
        ⟨1, 1, [0]⟩).probabilities, 0 ≤ p ∧ p ≤ 1) ∧
     |(pipeResult (fun _ => (1 : ℚ)) (fun _ => [0, 0, 0, 0, 0, 0, 0, 0, 0, 0])
        ⟨1, 1, [0]⟩).probabilities.sum - 1| ≤ 1 / 1000) :=
  ⟨fun _ => one_pos,
   pipeline_succeeds _ _ _ one_ne_zero one_ne_zero (fun _ => one_pos) rfl,
   C1_distribution_validity (fun _ => one_pos)
     (pipeline_succeeds _ _ _ one_ne_zero one_ne_zero (fun _ => one_pos) rfl)⟩

/-- C2: on every result the ResultPolicy reports, the digit is the index
of the maximum probability with ties broken by the lowest index, and the
confidence is exactly `probabilities[digit]`, unsmoothed. -/
theorem C2_argmax_consistency {probs : List ℚ} {r : ClassificationResult}
    (h : summarize probs = .ok r) :
    r.digit < probs.length ∧
    (∀ i, i < probs.length → probs.getD i 0 ≤ probs.getD r.digit 0) ∧
    (∀ i, i < r.digit → probs.getD i 0 < probs.getD r.digit 0) ∧
    r.confidence = probs.getD r.digit 0 ∧
    r.probabilities = probs := by
  obtain ⟨h10, _, rfl⟩ := summarize_ok_inv h
  have hne : probs ≠ [] := by
    intro hnil
    rw [hnil] at h10
    simp at h10
  exact ⟨argmaxIdx_lt_length probs hne,
    fun i hi => argmaxIdx_is_max probs i hi,
    fun i hi => argmaxIdx_first_max probs i hi, rfl, rfl⟩

/-- Witness for C2 on the uniform distribution obtained from an all-zero
score vector. -/
theorem C2_argmax_consistency_witness :
    summarize (softmaxWith (fun _ => (1 : ℚ)) [0, 0, 0, 0, 0, 0, 0, 0, 0, 0])
      = .ok ⟨argmaxIdx (softmaxWith (fun _ => (1 : ℚ)) [0, 0, 0, 0, 0, 0, 0, 0, 0, 0]),
          (softmaxWith (fun _ => (1 : ℚ)) [0, 0, 0, 0, 0, 0, 0, 0, 0, 0]).getD
            (argmaxIdx (softmaxWith (fun _ => (1 : ℚ)) [0, 0, 0, 0, 0, 0, 0, 0, 0, 0])) 0,
          softmaxWith (fun _ => (1 : ℚ)) [0, 0, 0, 0, 0, 0, 0, 0, 0, 0]⟩ ∧
    (⟨argmaxIdx (softmaxWith (fun _ => (1 : ℚ)) [0, 0, 0, 0, 0, 0, 0, 0, 0, 0]),
        (softmaxWith (fun _ => (1 : ℚ)) [0, 0, 0, 0, 0, 0, 0, 0, 0, 0]).getD
          (argmaxIdx (softmaxWith (fun _ => (1 : ℚ)) [0, 0, 0, 0, 0, 0, 0, 0, 0, 0])) 0,
        softmaxWith (fun _ => (1 : ℚ)) [0, 0, 0, 0, 0, 0, 0, 0, 0, 0]⟩ :
      ClassificationResult).confidence
      = (softmaxWith (fun _ => (1 : ℚ)) [0, 0, 0, 0, 0, 0, 0, 0, 0, 0]).getD
          (argmaxIdx (softmaxWith (fun _ => (1 : ℚ)) [0, 0, 0, 0, 0, 0, 0, 0, 0, 0])) 0 :=
  ⟨summarize_ok_of _
      ((length_softmaxWith (fun _ => (1 : ℚ)) [0, 0, 0, 0, 0, 0, 0, 0, 0, 0]).trans rfl)
      (abs_tol_of_sum_one (softmaxWith_sum _ _ (fun _ => one_pos) (List.cons_ne_nil _ _))),
   (C2_argmax_consistency (summarize_ok_of _
      ((length_softmaxWith (fun _ => (1 : ℚ)) [0, 0, 0, 0, 0, 0, 0, 0, 0, 0]).trans rfl)
      (abs_tol_of_sum_one
        (softmaxWith_sum _ _ (fun _ => one_pos) (List.cons_ne_nil _ _))))).2.2.2.1⟩

/-- C3 fails as stated: the callers test `data.error` for JavaScript
truthiness, not presence, so a response whose `error` field is present
but equal to the empty string is handled as a success — here the partial
digit 5 is displayed and no failure is signalled. -/
theorem C3_error_field_counterexample :
    (PredictResponse.mk (some 5) (some 1) (some [0, 0, 0, 0, 0, 1, 0, 0, 0, 0])
        (some "")).error.isSome = true ∧
    (handleResponseV2 emptyStateV2 0 ⟨0, 0, []⟩
        (.response true (PredictResponse.mk (some 5) (some 1)
          (some [0, 0, 0, 0, 0, 1, 0, 0, 0, 0]) (some "")))).predictedDigit = some 5 ∧
    (handleResponseV2 emptyStateV2 0 ⟨0, 0, []⟩
        (.response true (PredictResponse.mk (some 5) (some 1)
          (some [0, 0, 0, 0, 0, 1, 0, 0, 0, 0]) (some "")))).probabilities
      = some [0, 0, 0, 0, 0, 1, 0, 0, 0, 0] ∧
    (handleResponseV2 emptyStateV2 0 ⟨0, 0, []⟩
        (.response true (PredictResponse.mk (some 5) (some 1)
          (some [0, 0, 0, 0, 0, 1, 0, 0, 0, 0]) (some "")))).error = "" :=
  ⟨rfl, rfl, rfl, rfl⟩

/-- C3 (amended): if the error field is present with a non-empty message
then both callers treat the response as an authoritative failure —
result banner empty, error banner set, and (in the second revision)
probabilities and predicted digit nulled and no history entry added —
regardless of any digit/confidence fields also present. -/
theorem C3_error_field_authoritative {prev : UIStateV2} {prev1 : UIStateV1}
    {now : ℕ} {snapshot : Png} {ok : Bool} {data : PredictResponse} {m : String}
    (hm : data.error = some m) (hne : m ≠ "") :
    (handleResponseV2 prev now snapshot (.response ok data)).probabilities = none ∧
    (handleResponseV2 prev now snapshot (.response ok data)).predictedDigit = none ∧
    (handleResponseV2 prev now snapshot (.response ok data)).result = "" ∧
    (handleResponseV2 prev now snapshot (.response ok data)).error = "Error: " ++ m ∧
    (handleResponseV2 prev now snapshot (.response ok data)).history = prev.history ∧
    (handleResponseV1 prev1 (.response ok data)).result = "" ∧
    (handleResponseV1 prev1 (.response ok data)).error = "Error: " ++ m := by
  refine ⟨?_, ?_, ?_, ?_, ?_, ?_, ?_⟩ <;>
    simp [handleResponseV2, handleResponseV1, hm, errTruthy, hne, thrownMessage]

/-- Witness for C3 (amended) at a concrete failing response carrying a
digit next to the error field. -/
theorem C3_error_field_authoritative_witness :
    (PredictResponse.mk (some 3) (some 1) none (some "boom")).error = some "boom" ∧
    ("boom" : String) ≠ "" ∧
    ((handleResponseV2 emptyStateV2 7 ⟨0, 0, []⟩
        (.response true (PredictResponse.mk (some 3) (some 1) none
          (some "boom")))).probabilities = none ∧
     (handleResponseV2 emptyStateV2 7 ⟨0, 0, []⟩
        (.response true (PredictResponse.mk (some 3) (some 1) none
          (some "boom")))).predictedDigit = none ∧
     (handleResponseV2 emptyStateV2 7 ⟨0, 0, []⟩
        (.response true (PredictResponse.mk (some 3) (some 1) none
          (some "boom")))).result = "" ∧
     (handleResponseV2 emptyStateV2 7 ⟨0, 0, []⟩
        (.response true (PredictResponse.mk (some 3) (some 1) none
          (some "boom")))).error = "Error: " ++ "boom" ∧
     (handleResponseV2 emptyStateV2 7 ⟨0, 0, []⟩
        (.response true (PredictResponse.mk (some 3) (some 1) none
          (some "boom")))).history = emptyStateV2.history ∧
     (handleResponseV1 ⟨"", ""⟩
        (.response true (PredictResponse.mk (some 3) (some 1) none
          (some "boom")))).result = "" ∧
     (handleResponseV1 ⟨"", ""⟩
        (.response true (PredictResponse.mk (some 3) (some 1) none
          (some "boom")))).error = "Error: " ++ "boom") :=
  ⟨rfl, by decide, C3_error_field_authoritative rfl (by decide)⟩

/-- C4: on any decodable image with non-zero dimensions, normalization
yields a grid of exactly 28x28 = 784 intensities, and the same image
always yields the same grid (the resampler is a pure function with no
randomness). -/
theorem C4_normalize_shape_deterministic {img : RawImage}
    (hw : img.width ≠ 0) (hh : img.height ≠ 0) :
    ∃ g, normalize img = .ok g ∧ g.length = 28 * 28 ∧
      ∀ img2, img2 = img → normalize img2 = .ok g := by
  refine ⟨areaResample28 img.width img.height img.pixels, ?_, ?_, ?_⟩
  · unfold normalize
    rw [if_neg (by omega)]
  · simp [areaResample28]
  · intro img2 h2
    rw [h2]
    unfold normalize
    rw [if_neg (by omega)]

/-- Witness for C4 at a concrete 1x1 image. -/
theorem C4_normalize_shape_deterministic_witness :
    (RawImage.mk 1 1 [200]).width ≠ 0 ∧ (RawImage.mk 1 1 [200]).height ≠ 0 ∧
    (∃ g, normalize ⟨1, 1, [200]⟩ = .ok g ∧ g.length = 28 * 28 ∧
      ∀ img2, img2 = RawImage.mk 1 1 [200] → normalize img2 = .ok g) :=
  ⟨by decide, by decide,
   C4_normalize_shape_deterministic (by decide) (by decide)⟩

/-- C5: the full pipeline is deterministic — two runs on the same raw
image produce identical normalized grids, input tensors, probability
vectors and results (the trace is a pure function of the image alone). -/
theorem C5_pipeline_deterministic (e : ℚ → ℚ) (f : List ℚ → List ℚ)
    (img1 img2 : RawImage) (h : img1 = img2) :
    pipelineTrace e f img1 = pipelineTrace e f img2 := by
  rw [h]

/-- Witness for C5: two invocations on the same concrete image. -/
theorem C5_pipeline_deterministic_witness :
    (RawImage.mk 2 2 [0, 255, 255, 0]) = RawImage.mk 2 2 [0, 255, 255, 0] ∧
    pipelineTrace (fun _ => (1 : ℚ)) (fun _ => [0, 0, 0, 0, 0, 0, 0, 0, 0, 0])
        ⟨2, 2, [0, 255, 255, 0]⟩
      = pipelineTrace (fun _ => (1 : ℚ)) (fun _ => [0, 0, 0, 0, 0, 0, 0, 0, 0, 0])
        ⟨2, 2, [0, 255, 255, 0]⟩ :=
  ⟨rfl, C5_pipeline_deterministic _ _ _ _ rfl⟩

/-- C6: a zero-byte upload, or one the image decoder rejects, yields a
structured error payload with status 400 (non-2xx) and never a
classification result. -/
theorem C6_malformed_upload_rejected (decodeImage : List ℕ → Option RawImage)
    (e : ℚ → ℚ) (f : List ℚ → List ℚ) (upload : List ℕ)
    (h : upload = [] ∨ decodeImage upload = none) :
    (handlePredict decodeImage e f upload).status = 400 ∧
    ¬(200 ≤ (handlePredict decodeImage e f upload).status ∧
        (handlePredict decodeImage e f upload).status ≤ 299) ∧
    (handlePredict decodeImage e f upload).error.isSome = true ∧
    (handlePredict decodeImage e f upload).digit = none ∧
    (handlePredict decodeImage e f upload).confidence = none ∧
    (handlePredict decodeImage e f upload).probabilities = none := by
  have hresp : handlePredict decodeImage e f upload
        = ⟨400, none, none, none, some "Empty upload"⟩ ∨
      handlePredict decodeImage e f upload
        = ⟨400, none, none, none, some (errorText .decodeError)⟩ := by
    rcases h with h | h
    · left
      simp [handlePredict, h]
    · by_cases hnil : upload = []
      · left
        simp [handlePredict, hnil]
      · right
        simp [handlePredict, h, hnil]
  rcases hresp with h2 | h2 <;> rw [h2] <;>
    exact ⟨rfl, by decide, rfl, rfl, rfl, rfl⟩

/-- Witness for C6 at the empty upload, with a decoder that rejects
everything. -/
theorem C6_malformed_upload_rejected_witness :
    (([] : List ℕ) = [] ∨ (fun _ : List ℕ => (none : Option RawImage)) [] = none) ∧
    ((handlePredict (fun _ => none) (fun _ => (1 : ℚ))
        (fun _ => [0, 0, 0, 0, 0, 0, 0, 0, 0, 0]) []).status = 400 ∧
     ¬(200 ≤ (handlePredict (fun _ => none) (fun _ => (1 : ℚ))
        (fun _ => [0, 0, 0, 0, 0, 0, 0, 0, 0, 0]) []).status ∧
       (handlePredict (fun _ => none) (fun _ => (1 : ℚ))
        (fun _ => [0, 0, 0, 0, 0, 0, 0, 0, 0, 0]) []).status ≤ 299) ∧
     (handlePredict (fun _ => none) (fun _ => (1 : ℚ))
        (fun _ => [0, 0, 0, 0, 0, 0, 0, 0, 0, 0]) []).error.isSome = true ∧
     (handlePredict (fun _ => none) (fun _ => (1 : ℚ))
        (fun _ => [0, 0, 0, 0, 0, 0, 0, 0, 0, 0]) []).digit = none ∧
     (handlePredict (fun _ => none) (fun _ => (1 : ℚ))
        (fun _ => [0, 0, 0, 0, 0, 0, 0, 0, 0, 0]) []).confidence = none ∧
     (handlePredict (fun _ => none) (fun _ => (1 : ℚ))
        (fun _ => [0, 0, 0, 0, 0, 0, 0, 0, 0, 0]) []).probabilities = none) :=
  ⟨Or.inl rfl,
   C6_malformed_upload_rejected (fun _ => none) (fun _ => (1 : ℚ))
     (fun _ => [0, 0, 0, 0, 0, 0, 0, 0, 0, 0]) [] (Or.inl rfl)⟩

/-- C7: a blank, all-background drawing is not rejected: the pipeline
runs the classifier on it and returns a result satisfying the
distribution-validity invariant, raising no error. -/
theorem C7_blank_input_ok {w h : ℕ} (e : ℚ → ℚ) (f : List ℚ → List ℚ)
    (hw : w ≠ 0) (hh : h ≠ 0) (he : ∀ x, 0 < e x)
    (hf : ∀ v, (f v).length = 10) :
    ∃ r, pipeline e f (blankImage w h) = .ok r ∧
      r.probabilities.length = 10 ∧
      (∀ p ∈ r.probabilities, 0 ≤ p ∧ p ≤ 1) ∧
      |r.probabilities.sum - 1| ≤ 1 / 1000 := by
  have hr : pipeline e f (blankImage w h) = .ok (pipeResult e f (blankImage w h)) :=
    pipeline_succeeds e f (blankImage w h) hw hh he (hf _)
  obtain ⟨hps, h10, hsum, _, _⟩ := pipeline_ok_inv hr
  have hslen : (pipelineScores f (blankImage w h)).length = 10 := hf _
  have hsne : pipelineScores f (blankImage w h) ≠ [] := by
    intro hn
    rw [hn] at hslen
    simp at hslen
  refine ⟨pipeResult e f (blankImage w h), hr, h10, ?_, hsum⟩
  rw [hps]
  exact softmaxWith_mem_bounds _ _ he hsne

/-- Witness for C7 on a blank 3x2 drawing. -/
theorem C7_blank_input_ok_witness :
    (3 : ℕ) ≠ 0 ∧ (2 : ℕ) ≠ 0 ∧
    (∀ x : ℚ, 0 < (fun _ : ℚ => (1 : ℚ)) x) ∧
    (∀ v, ((fun _ : List ℚ => [(0 : ℚ), 0, 0, 0, 0, 0, 0, 0, 0, 0]) v).length = 10) ∧
    (∃ r, pipeline (fun _ => (1 : ℚ)) (fun _ => [0, 0, 0, 0, 0, 0, 0, 0, 0, 0])
        (blankImage 3 2) = .ok r ∧
      r.probabilities.length = 10 ∧
      (∀ p ∈ r.probabilities, 0 ≤ p ∧ p ≤ 1) ∧
      |r.probabilities.sum - 1| ≤ 1 / 1000) :=
  ⟨by decide, by decide, fun _ => one_pos, fun _ => rfl,
   C7_blank_input_ok _ _ (by decide) (by decide) (fun _ => one_pos) (fun _ => rfl)⟩

/-- C8: in both frontend revisions, every classification request is an
HTTP POST to `API_BASE + "/predict"` whose body is a multipart form with
exactly one file field, holding a PNG blob; the drawing surface those
bytes come from is black-filled with white strokes. -/
theorem C8_request_shape (apiBase : String) (c : Canvas) :
    (classifyRequestV1 apiBase c).method = "POST" ∧
    (classifyRequestV1 apiBase c).url = apiBase ++ "/predict" ∧
    (classifyRequestV1 apiBase c).fields.length = 1 ∧
    (∀ fld ∈ (classifyRequestV1 apiBase c).fields,
        fld.name = "file" ∧ fld.content.mime = "image/png") ∧
    (classifyRequestV2 apiBase c).method = "POST" ∧
    (classifyRequestV2 apiBase c).url = apiBase ++ "/predict" ∧
    (classifyRequestV2 apiBase c).fields.length = 1 ∧
    (∀ fld ∈ (classifyRequestV2 apiBase c).fields,
        fld.name = "file" ∧ fld.content.mime = "image/png") ∧
    canvasFillStyle = "black" ∧ canvasStrokeStyle = "white" := by
  refine ⟨rfl, rfl, rfl, ?_, rfl, rfl, rfl, ?_, rfl, rfl⟩ <;>
    · intro fld hf
      simp [classifyRequestV1, classifyRequestV2] at hf
      subst hf
      exact ⟨rfl, rfl⟩

/-- C9: the two frontend revisions build identical requests at the
boundary: the uploaded image is the client-side 28x28 downscale (never
the 280x280 canvas), appended under field name `"file"` with filename
`"digit.png"`. -/
theorem C9_request_refinement (apiBase : String) (c : Canvas) :
    classifyRequestV1 apiBase c = classifyRequestV2 apiBase c ∧
    (∀ fld ∈ (classifyRequestV2 apiBase c).fields,
        fld.name = "file" ∧ fld.filename = "digit.png" ∧
        fld.content.png = encodePng (downscaleTo28 c) ∧
        fld.content.png.width = MNIST_SIZE ∧
        fld.content.png.height = MNIST_SIZE ∧
        fld.content.png.width ≠ CANVAS_SIZE ∧
        fld.content.png.height ≠ CANVAS_SIZE) ∧
    MNIST_SIZE = 28 ∧ CANVAS_SIZE = 280 := by
  refine ⟨rfl, ?_, rfl, rfl⟩
  intro fld hf
  simp [classifyRequestV2] at hf
  subst hf
  exact ⟨rfl, rfl, rfl, rfl, rfl, (by decide : (28 : ℕ) ≠ 280), (by decide : (28 : ℕ) ≠ 280)⟩

/-- C10 fails as stated: by the claim, a response carrying an `error`
field is a failed request, yet a present-but-empty `error` string is
falsy in JavaScript, so the second revision handles this response as a
success and displays the digit and probabilities instead of resetting
them to null. -/
theorem C10_failure_reset_counterexample :
    (PredictResponse.mk (some 7) (some 1) (some [0, 0, 0, 0, 0, 0, 0, 1, 0, 0])
        (some "")).error.isSome = true ∧
    (handleResponseV2 emptyStateV2 3 ⟨0, 0, []⟩
        (.response true (PredictResponse.mk (some 7) (some 1)
          (some [0, 0, 0, 0, 0, 0, 0, 1, 0, 0]) (some "")))).probabilities
      = some [0, 0, 0, 0, 0, 0, 0, 1, 0, 0] ∧
    (handleResponseV2 emptyStateV2 3 ⟨0, 0, []⟩
        (.response true (PredictResponse.mk (some 7) (some 1)
          (some [0, 0, 0, 0, 0, 0, 0, 1, 0, 0]) (some "")))).predictedDigit = some 7 :=
  ⟨rfl, rfl, rfl⟩

/-- C10 (amended): in the newer frontend, whenever the request fails —
non-ok HTTP status, a present non-empty `error` field, or a thrown
exception — the displayed probabilities and predicted digit are reset to
null, the result banner stays empty and a non-empty error message is
shown, so no stale prediction is displayed alongside the error. -/
theorem C10_failure_resets_display {prev : UIStateV2} {now : ℕ} {snapshot : Png}
    {o : FetchOutcome}
    (h : (∃ msg, o = .threw msg) ∨
      (∃ ok data, o = .response ok data ∧
        (ok = false ∨ ∃ m, data.error = some m ∧ m ≠ ""))) :
    (handleResponseV2 prev now snapshot o).probabilities = none ∧
    (handleResponseV2 prev now snapshot o).predictedDigit = none ∧
    (handleResponseV2 prev now snapshot o).result = "" ∧
    (handleResponseV2 prev now snapshot o).error ≠ "" ∧
    (handleResponseV2 prev now snapshot o).history = prev.history := by
  rcases h with ⟨msg, rfl⟩ | ⟨ok, data, rfl, hfail⟩
  · exact ⟨rfl, rfl, rfl, error_text_ne_empty msg, rfl⟩
  · have ht : (ok = false ∨ errTruthy data.error = true) := by
      rcases hfail with hok | ⟨m, hm, hne⟩
      · exact Or.inl hok
      · exact Or.inr (by simp [errTruthy, hm, hne])
    refine ⟨?_, ?_, ?_, ?_, ?_⟩
    all_goals simp only [handleResponseV2, if_pos ht]
    exact error_text_ne_empty _

/-- Witness for C10 (amended) at a thrown network exception. -/
theorem C10_failure_resets_display_witness :
    ((∃ msg, FetchOutcome.threw "network down" = .threw msg) ∨
      (∃ ok data, FetchOutcome.threw "network down" = .response ok data ∧
        (ok = false ∨ ∃ m, data.error = some m ∧ m ≠ ""))) ∧
    ((handleResponseV2 emptyStateV2 9 ⟨0, 0, []⟩
        (.threw "network down")).probabilities = none ∧
     (handleResponseV2 emptyStateV2 9 ⟨0, 0, []⟩
        (.threw "network down")).predictedDigit = none ∧
     (handleResponseV2 emptyStateV2 9 ⟨0, 0, []⟩
        (.threw "network down")).result = "" ∧
     (handleResponseV2 emptyStateV2 9 ⟨0, 0, []⟩
        (.threw "network down")).error ≠ "" ∧
     (handleResponseV2 emptyStateV2 9 ⟨0, 0, []⟩
        (.threw "network down")).history = emptyStateV2.history) :=
  ⟨Or.inl ⟨"network down", rfl⟩,
   C10_failure_resets_display (Or.inl ⟨"network down", rfl⟩)⟩

end Mnist
